import Mathlib

/-!
Shallow embedding of the `location-monitor` tracking engine (TypeScript) and
proofs about its specification claims.

Modelling conventions:
* JavaScript numbers are modelled as real numbers (`ℝ`).  For the one claim
  whose substance is JavaScript `NaN` comparison semantics
  (geofence validation), a dedicated number type `JNum` with `nan` and the
  infinities is used, with rationals for the finite values.
* The storage backend is the in-memory adapter (`memory.adapter.ts`):
  association lists keyed by agent id, in insertion order, mirroring the
  insertion-order semantics of JavaScript `Map`.
* Published events are collected in an append-only log; subscriber handlers
  are represented by their count (the adapter stores an array of callbacks,
  of which only presence/absence is observable in the claims).
* `async` methods are sequentialised: each method is a pure function from
  store state to store state, mirroring the awaited order of the source.
* The wall clock `now()` is passed explicitly as a `nowMs` argument.
-/

open Real

namespace LocationMonitor

/-- Agent presence status, the closed enumeration `AgentStatus` of
`event-types.ts`. -/
inductive AgentStatus : Type
  | active
  | idle
  | moving
  | stopped
  | unreachable
  | offline
  deriving DecidableEq, Repr

/-- A location sample, `LocationData` of `event-types.ts`.  `speed` and
`heading` are the optional derived fields; `metadata` is dropped (it is
never read by the engines). -/
structure LocationData : Type where
  agentId : String
  latitude : ℝ
  longitude : ℝ
  timestamp : ℝ
  speed : Option ℝ
  heading : Option ℝ

/-- Per-agent statistics kept by the memory adapter's `stats` map. -/
structure AgentStats : Type where
  totalLocations : ℕ
  totalDistance : ℝ
  lastUpdate : ℝ

/-- The agent state snapshot, `AgentStateSnapshot` of `event-types.ts`. -/
structure AgentStateSnapshot : Type where
  agentId : String
  status : AgentStatus
  lastLocation : Option LocationData
  lastUpdate : ℝ
  lastMovement : Option ℝ
  totalDistanceTraveled : ℝ
  activeGeofences : List String

/-- Events published through the storage contract.  Each constructor keeps
exactly the payload fields that the claims observe. -/
inductive MonitorEvent : Type
  | locationReceived (agentId : String) (loc : LocationData)
      (distanceTraveled : ℝ) (speed : Option ℝ)
  | statusChanged (agentId : String) (oldStatus newStatus : AgentStatus)
      (timestamp : ℝ) (reason : Option String)
  | agentUnreachable (agentId : String)
  | agentBackOnline (agentId : String)
  | agentIdle (agentId : String)
  | agentActive (agentId : String)
  | enteredGeofence (agentId : String) (geofenceId : String)
  | exitedGeofence (agentId : String) (geofenceId : String)

/-- Threshold configuration, `ThresholdConfig` of `config.types.ts`. -/
structure ThresholdConfig : Type where
  idleAfter : ℝ
  unreachableAfter : ℝ
  offlineAfter : ℝ
  minSpeed : ℝ
  maxJumpDistance : ℝ

/-- The default thresholds of `DEFAULT_CONFIG`. -/
def defaultThresholds : ThresholdConfig :=
  { idleAfter := 300000
    unreachableAfter := 30000
    offlineAfter := 600000
    minSpeed := 1.5
    maxJumpDistance := 300 }

/-! ### Association lists (JavaScript `Map` with insertion order) -/

/-- `Map.set`: overwrite in place if the key exists, else append. -/
def setAssoc {α : Type} (k : String) (v : α) :
    List (String × α) → List (String × α)
  | [] => [(k, v)]
  | (k', v') :: rest =>
      if k = k' then (k, v) :: rest else (k', v') :: setAssoc k v rest

/-- `Map.get`: the value stored at a key, if any. -/
def getAssoc {α : Type} (k : String) : List (String × α) → Option α
  | [] => none
  | (k', v') :: rest => if k = k' then some v' else getAssoc k rest

/-- `Map.delete`: remove the entry at a key. -/
def delAssoc {α : Type} (k : String) (l : List (String × α)) :
    List (String × α) :=
  l.filter (fun p => p.1 ≠ k)

/-! ### Memory storage adapter state (`memory.adapter.ts`) -/

/-- The whole state of a `MemoryAdapter`, together with the log of events it
has published (`publishEvent` appends to the log and hands the event to each
subscribed handler; handlers are tracked by count). -/
structure MemStore : Type where
  locations : List (String × LocationData)
  statuses : List (String × (AgentStatus × ℝ))
  states : List (String × AgentStateSnapshot)
  stats : List (String × AgentStats)
  events : List MonitorEvent
  subscriberCount : ℕ

/-- The store of a freshly constructed adapter: all maps empty. -/
def emptyStore : MemStore :=
  { locations := []
    statuses := []
    states := []
    stats := []
    events := []
    subscriberCount := 0 }

/-- `MemoryAdapter.disconnect`: clear every map and drop all handlers. -/
def disconnectStore (s : MemStore) : MemStore :=
  { locations := []
    statuses := []
    states := []
    stats := []
    events := s.events
    subscriberCount := 0 }

/-- `MemoryAdapter.saveLocation`: store the sample and update the stats
entry (`totalLocations++`, `lastUpdate := location.timestamp`;
`totalDistance` is not touched). -/
def saveLocationStore (s : MemStore) (agentId : String)
    (location : LocationData) : MemStore :=
  let stats0 := (getAssoc agentId s.stats).getD
    { totalLocations := 0, totalDistance := 0, lastUpdate := location.timestamp }
  { s with
      locations := setAssoc agentId location s.locations
      stats := setAssoc agentId
        { stats0 with
            totalLocations := stats0.totalLocations + 1
            lastUpdate := location.timestamp } s.stats }

/-- `MemoryAdapter.getLastLocation`. -/
def getLastLocationStore (s : MemStore) (agentId : String) :
    Option LocationData :=
  getAssoc agentId s.locations

/-- `MemoryAdapter.saveStatus`. -/
def saveStatusStore (s : MemStore) (agentId : String) (status : AgentStatus)
    (timestamp : ℝ) : MemStore :=
  { s with statuses := setAssoc agentId (status, timestamp) s.statuses }

/-- `MemoryAdapter.getStatus` (`data?.status || null`; statuses are non-empty
strings in the source, hence always truthy). -/
def getStatusStore (s : MemStore) (agentId : String) : Option AgentStatus :=
  (getAssoc agentId s.statuses).map Prod.fst

/-- `MemoryAdapter.saveAgentState`. -/
def saveAgentStateStore (s : MemStore) (agentId : String)
    (state : AgentStateSnapshot) : MemStore :=
  { s with states := setAssoc agentId state s.states }

/-- `MemoryAdapter.getAgentState`. -/
def getAgentStateStore (s : MemStore) (agentId : String) :
    Option AgentStateSnapshot :=
  getAssoc agentId s.states

/-- `MemoryAdapter.getAgentStats`. -/
def getAgentStatsStore (s : MemStore) (agentId : String) : Option AgentStats :=
  getAssoc agentId s.stats

/-- `MemoryAdapter.getAllAgents`: the deduplicated agent ids across the
location, status and state maps. -/
def getAllAgentsStore (s : MemStore) : List String :=
  ((s.locations.map Prod.fst) ++ (s.statuses.map Prod.fst) ++
    (s.states.map Prod.fst)).dedup

/-- `MemoryAdapter.publishEvent`: append to the event log (each subscribed
handler receives the event; handler failures are caught). -/
def publishEventStore (s : MemStore) (e : MonitorEvent) : MemStore :=
  { s with events := s.events ++ [e] }

/-- `MemoryAdapter.clearAgentData`: delete this agent from all four maps. -/
def clearAgentDataStore (s : MemStore) (agentId : String) : MemStore :=
  { s with
      locations := delAssoc agentId s.locations
      statuses := delAssoc agentId s.statuses
      states := delAssoc agentId s.states
      stats := delAssoc agentId s.stats }

/-! ### Geo primitives (`distance-calculator.ts`)

Real-number conditions (`<`, `≤` on `ℝ`) are not decidable, so the
conditionals of the source are embedded using classical decidability; the
concrete evaluations in the theorems below discharge them with `norm_num`. -/

open scoped Classical

/-- Degrees to radians (`toRadians`). -/
noncomputable def toRadians (degrees : ℝ) : ℝ := degrees * π / 180

/-- Radians to degrees (`toDegrees`). -/
noncomputable def toDegrees (radians : ℝ) : ℝ := radians * 180 / π

/-- JavaScript `Math.atan2`. -/
noncomputable def atan2 (y x : ℝ) : ℝ :=
  if 0 < x then arctan (y / x)
  else if x < 0 then
    (if 0 ≤ y then arctan (y / x) + π else arctan (y / x) - π)
  else if 0 < y then π / 2
  else if y < 0 then -(π / 2)
  else 0

/-- Earth radius used by the source, in meters. -/
def EARTH_RADIUS_M : ℝ := 6371000

/-- `calculateDistance`: Haversine great-circle distance in meters. -/
noncomputable def calculateDistance (lat1 lon1 lat2 lon2 : ℝ) : ℝ :=
  let dLat := toRadians (lat2 - lat1)
  let dLon := toRadians (lon2 - lon1)
  let a := Real.sin (dLat / 2) * Real.sin (dLat / 2) +
    Real.cos (toRadians lat1) * Real.cos (toRadians lat2) *
      Real.sin (dLon / 2) * Real.sin (dLon / 2)
  let c := 2 * atan2 (Real.sqrt a) (Real.sqrt (1 - a))
  EARTH_RADIUS_M * c

/-- `calculateBearing`: initial bearing in degrees, normalised by
`(bearing + 360) % 360` (JavaScript `%` on a value in `(-360, 360)`
shifted by `+360` behaves as the mathematical remainder used here). -/
noncomputable def calculateBearing (lat1 lon1 lat2 lon2 : ℝ) : ℝ :=
  let dLon := toRadians (lon2 - lon1)
  let y := Real.sin dLon * Real.cos (toRadians lat2)
  let x := Real.cos (toRadians lat1) * Real.sin (toRadians lat2) -
    Real.sin (toRadians lat1) * Real.cos (toRadians lat2) * Real.cos dLon
  let bearing := toDegrees (atan2 y x)
  (bearing + 360) - 360 * ⌊(bearing + 360) / 360⌋

/-- `calculateSpeed`: km/h from meters and milliseconds; `0` when the time
span is `0`. -/
noncomputable def calculateSpeed (distanceMeters timeMs : ℝ) : ℝ :=
  if timeMs = 0 then 0
  else (distanceMeters / 1000) / (timeMs / (1000 * 60 * 60))

/-- `isValidCoordinate`: range check on latitude/longitude (the source's
`isNaN` guards have no counterpart on `ℝ`, where every value is a number). -/
def isValidCoordinate (latitude longitude : ℝ) : Prop :=
  latitude ≥ -90 ∧ latitude ≤ 90 ∧ longitude ≥ -180 ∧ longitude ≤ 180

/-- `isAbnormalJump`: advisory anomaly flag.  It is only ever logged by the
engine and has no effect on state. -/
def isAbnormalJump (distanceMeters timeMs maxJumpDistance : ℝ) : Prop :=
  ¬ (timeMs < 1000) ∧ distanceMeters > maxJumpDistance

/-! ### Time utilities (`time.utils.ts`) -/

/-- `isOlderThan`, with the wall clock made explicit. -/
def isOlderThan (nowMs timestamp durationMs : ℝ) : Prop :=
  nowMs - timestamp > durationMs

/-- `isValidTimestamp`, with the wall clock made explicit. -/
def isValidTimestamp (nowMs timestamp : ℝ) : Prop :=
  timestamp > 0 ∧ timestamp ≤ nowMs + 60000

/-! ### Status engine (`status-engine.ts`) -/

/-- `StatusEngine.determineStatus`: classify a new sample against the last
stored sample.  `location.speed || 0` is `Option.getD 0` (for a present
speed `s`, `s || 0` is `s` when `s ≠ 0` and `0 = s` otherwise). -/
noncomputable def determineStatus (th : ThresholdConfig)
    (currentLocation : LocationData) (lastLocation : Option LocationData) :
    AgentStatus :=
  match lastLocation with
  | none => .active
  | some last =>
      if currentLocation.timestamp - last.timestamp > th.unreachableAfter then
        .active
      else if (currentLocation.speed.getD 0) ≥ th.minSpeed then .moving
      else .stopped

/-- `StatusEngine.emitSpecificStatusEvents`: the four specialised events
(the snapshot payload carried by the source events is not observed by any
claim and is omitted from the event constructors). -/
def emitSpecificStatusEvents (s : MemStore) (agentId : String)
    (oldStatus newStatus : AgentStatus) : MemStore :=
  let s1 :=
    if newStatus = .unreachable ∧ oldStatus ≠ .unreachable then
      publishEventStore s (.agentUnreachable agentId)
    else s
  let s2 :=
    if (oldStatus = .unreachable ∨ oldStatus = .offline) ∧
        (newStatus = .active ∨ newStatus = .moving) then
      publishEventStore s1 (.agentBackOnline agentId)
    else s1
  let s3 :=
    if newStatus = .idle ∧ oldStatus ≠ .idle then
      publishEventStore s2 (.agentIdle agentId)
    else s2
  if newStatus = .active ∧ (oldStatus = .idle ∨ oldStatus = .stopped) then
    publishEventStore s3 (.agentActive agentId)
  else s3

/-- `StatusEngine.updateStatus`: save the status, publish `status.changed`,
then the specialised events. -/
def updateStatus (s : MemStore) (agentId : String)
    (oldStatus newStatus : AgentStatus) (timestamp : ℝ)
    (reason : Option String) : MemStore :=
  let s1 := saveStatusStore s agentId newStatus timestamp
  let s2 := publishEventStore s1
    (.statusChanged agentId oldStatus newStatus timestamp reason)
  emitSpecificStatusEvents s2 agentId oldStatus newStatus

/-- `StatusEngine.detectStatus`: event-driven status detection on ingest.
`currentStatus !== newStatus` compares a nullable with a status (strict
inequality is true whenever `currentStatus` is `null`), and
`currentStatus || ACTIVE` substitutes `ACTIVE` for `null`. -/
noncomputable def detectStatus (th : ThresholdConfig) (s : MemStore)
    (agentId : String) (location : LocationData) : AgentStatus × MemStore :=
  let currentStatus := getStatusStore s agentId
  let lastLocation := getLastLocationStore s agentId
  let newStatus := determineStatus th location lastLocation
  if currentStatus ≠ some newStatus then
    (newStatus,
      updateStatus s agentId (currentStatus.getD .active) newStatus
        location.timestamp none)
  else (newStatus, s)

/-- JavaScript truthiness of an optional number (`undefined` and `0` are
falsy). -/
def optTruthy : Option ℝ → Prop
  | none => False
  | some x => x ≠ 0

/-- `StatusEngine.checkStatusByTime`: time-driven re-evaluation used by the
watchdog.  The three checks each overwrite `newStatus`; the last one that
fires wins. -/
noncomputable def checkStatusByTime (th : ThresholdConfig) (nowMs : ℝ)
    (s : MemStore) (agentId : String) : AgentStatus × MemStore :=
  match getAgentStateStore s agentId with
  | none => (.offline, s)
  | some state =>
      if state.lastUpdate = 0 then (.offline, s)
      else
        let currentStatus := state.status
        let n1 :=
          if isOlderThan nowMs state.lastUpdate th.unreachableAfter ∧
              currentStatus ≠ .unreachable ∧ currentStatus ≠ .offline then
            AgentStatus.unreachable
          else currentStatus
        let n2 :=
          if isOlderThan nowMs state.lastUpdate th.offlineAfter ∧
              currentStatus ≠ .offline then
            AgentStatus.offline
          else n1
        let n3 :=
          if optTruthy state.lastMovement ∧
              isOlderThan nowMs (state.lastMovement.getD 0) th.idleAfter ∧
              (currentStatus = .active ∨ currentStatus = .moving) then
            AgentStatus.idle
          else n2
        if currentStatus ≠ n3 then
          (n3, updateStatus s agentId currentStatus n3 nowMs none)
        else (n3, s)

/-- `StatusEngine.setStatus`: manual override.  With no persisted status,
`currentStatus !== status` holds and `currentStatus || OFFLINE` substitutes
`OFFLINE` as the old status. -/
def setStatus (s : MemStore) (agentId : String) (status : AgentStatus)
    (nowMs : ℝ) (reason : Option String) : MemStore :=
  match getStatusStore s agentId with
  | some c => if c ≠ status then updateStatus s agentId c status nowMs reason
      else s
  | none => updateStatus s agentId .offline status nowMs reason

/-! ### Location engine (`location-engine.ts`) -/

/-- `LocationEngine.validateInput`: reject an empty agent id (falsy string)
or invalid coordinates. -/
def validateInput (agentId : String) (latitude longitude : ℝ) : Prop :=
  agentId ≠ "" ∧ isValidCoordinate latitude longitude

/-- `LocationEngine.trackLocation`: validate, substitute the timestamp,
derive the metrics from the previously stored sample, build the sample,
persist it and publish `location.received`.  The abnormal-jump check of the
source only logs and is omitted (it changes no state).  Errors are
surfaced to the caller; on error nothing is persisted (the thrown
exception in the source precedes every write). -/
noncomputable def trackLocation (th : ThresholdConfig) (nowMs : ℝ)
    (s : MemStore) (agentId : String) (latitude longitude : ℝ)
    (timestamp : Option ℝ) : Except Unit (LocationData × MemStore) :=
  if validateInput agentId latitude longitude then
    let locationTimestamp :=
      match timestamp with
      | some t => if isValidTimestamp nowMs t then t else nowMs
      | none => nowMs
    let lastLocation := getLastLocationStore s agentId
    let distanceTraveled :=
      match lastLocation with
      | none => 0
      | some last =>
          calculateDistance last.latitude last.longitude latitude longitude
    let speed : Option ℝ :=
      match lastLocation with
      | none => none
      | some last =>
          if locationTimestamp - last.timestamp > 0 then
            some (calculateSpeed distanceTraveled
              (locationTimestamp - last.timestamp))
          else none
    let heading : Option ℝ :=
      match lastLocation with
      | none => none
      | some last =>
          if distanceTraveled > 1 then
            some (calculateBearing last.latitude last.longitude
              latitude longitude)
          else none
    let locationData : LocationData :=
      { agentId := agentId
        latitude := latitude
        longitude := longitude
        timestamp := locationTimestamp
        speed := speed
        heading := heading }
    let s1 := saveLocationStore s agentId locationData
    let s2 := publishEventStore s1
      (.locationReceived agentId locationData distanceTraveled speed)
    .ok (locationData, s2)
  else .error ()

/-! ### Geofence engine (`geo-engine.ts` and `geo.utils.ts`) -/

/-- A coordinate pair as used in geofence definitions. -/
structure Coord : Type where
  latitude : ℝ
  longitude : ℝ

/-- The circular geofence variant of `config.types.ts`. -/
structure CircularGeofence : Type where
  id : String
  name : String
  center : Coord
  radius : ℝ

/-- The polygon geofence variant of `config.types.ts`. -/
structure PolygonGeofence : Type where
  id : String
  name : String
  coordinates : List Coord

/-- The tagged union `Geofence`. -/
inductive Geofence : Type
  | circular (g : CircularGeofence)
  | polygon (g : PolygonGeofence)

/-- The id common to both variants. -/
def Geofence.id : Geofence → String
  | .circular g => g.id
  | .polygon g => g.id

/-- The name common to both variants. -/
def Geofence.name : Geofence → String
  | .circular g => g.name
  | .polygon g => g.name

/-- `isPointInCircle`: Haversine distance to the center at most the radius
(closed disc). -/
def isPointInCircle (latitude longitude : ℝ) (g : CircularGeofence) : Prop :=
  calculateDistance latitude longitude g.center.latitude g.center.longitude ≤
    g.radius

/-- One iteration of the ray-casting loop of `isPointInPolygon`: edge from
`vi` (index `i`) to `vj` (index `j`, the predecessor).  When the latitude
test fails, JavaScript short-circuits before the division; the conjunction
below is false in exactly the same cases (a true latitude test forces
`vj.latitude ≠ vi.latitude`, so the total division of `ℝ` agrees with the
source). -/
noncomputable def rayCastStep (latitude longitude : ℝ) (inside : Bool)
    (v : Coord × Coord) : Bool :=
  if ((v.1.latitude > latitude) ≠ (v.2.latitude > latitude)) ∧
      longitude <
        (v.2.longitude - v.1.longitude) * (latitude - v.1.latitude) /
            (v.2.latitude - v.1.latitude) +
          v.1.longitude then
    !inside
  else inside

/-- The `(vertices[i], vertices[j])` pairs of the ray-casting loop, with
`j = i - 1` cyclically (`j` starts at the last vertex). -/
def polygonEdges (vs : List Coord) : List (Coord × Coord) :=
  vs.zip ((vs.getLast?.toList) ++ vs.dropLast)

/-- `isPointInPolygon`: ray casting over all edges. -/
noncomputable def isPointInPolygon (latitude longitude : ℝ)
    (g : PolygonGeofence) : Bool :=
  (polygonEdges g.coordinates).foldl (rayCastStep latitude longitude) false

/-- `isPointInGeofence`: dispatch on the variant tag. -/
def isPointInGeofence (latitude longitude : ℝ) : Geofence → Prop
  | .circular g => isPointInCircle latitude longitude g
  | .polygon g => isPointInPolygon latitude longitude g = true

/-- `validateGeofence` on the real-number model: the list of error messages
accumulated by the source, in order. -/
noncomputable def validateGeofenceErrors : Geofence → List String
  | .circular g =>
      (if g.id = "" ∨ g.name = "" then ["Geofence must have id and name"]
       else []) ++
      (if g.radius ≤ 0 then ["Circular geofence radius must be positive"]
       else []) ++
      (if g.center.latitude < -90 ∨ g.center.latitude > 90 ∨
          g.center.longitude < -180 ∨ g.center.longitude > 180 then
        ["Invalid center coordinates"]
       else [])
  | .polygon g =>
      (if g.id = "" ∨ g.name = "" then ["Geofence must have id and name"]
       else []) ++
      (if g.coordinates.length < 3 then
        ["Polygon must have at least 3 vertices"]
       else []) ++
      (if ∃ c ∈ g.coordinates, c.latitude < -90 ∨ c.latitude > 90 ∨
          c.longitude < -180 ∨ c.longitude > 180 then
        ["Invalid vertex coordinates"]
       else [])

/-- `validateGeofence` validity: no errors accumulated. -/
noncomputable def validateGeofenceValid (g : Geofence) : Bool :=
  validateGeofenceErrors g = []

/-- The state owned by a `GeoEngine`: the zone registry and the per-agent
membership index, both in `Map` insertion order. -/
structure GeoState : Type where
  geofences : List (String × Geofence)
  agentGeofences : List (String × List String)

/-- A freshly constructed `GeoEngine`. -/
def emptyGeoState : GeoState :=
  { geofences := [], agentGeofences := [] }

/-- `GeoEngine.registerGeofence`: validate, reject invalid zones, otherwise
insert/overwrite by id. -/
noncomputable def registerGeofence (st : GeoState) (g : Geofence) :
    Except Unit GeoState :=
  if validateGeofenceValid g then
    .ok { st with geofences := setAssoc g.id g st.geofences }
  else .error ()

/-- `GeoEngine.removeGeofence`: erase from the registry and from every
agent's membership set; no events are emitted. -/
def removeGeofence (st : GeoState) (geofenceId : String) : GeoState :=
  { geofences := delAssoc geofenceId st.geofences
    agentGeofences :=
      st.agentGeofences.map (fun p => (p.1, p.2.filter (· ≠ geofenceId))) }

/-- `GeoEngine.getGeofences`: the registered zones in insertion order. -/
def getGeofences (st : GeoState) : List Geofence :=
  st.geofences.map Prod.snd

/-- `GeoEngine.clearAgentGeofences`. -/
def clearAgentGeofences (st : GeoState) (agentId : String) : GeoState :=
  { st with agentGeofences := delAssoc agentId st.agentGeofences }

/-- `GeoEngine.getAgentGeofences`: the full zone records of the agent's
membership set (ids whose zone has been deleted are filtered out). -/
def getAgentGeofencesZ (st : GeoState) (agentId : String) : List Geofence :=
  ((getAssoc agentId st.agentGeofences).getD []).filterMap
    (fun zid => getAssoc zid st.geofences)

/-- The loop body of `GeoEngine.checkGeofences` over the registry: compute
the new membership list and the enter/exit events emitted, in registry
order. -/
noncomputable def checkZones (agentId : String) (latitude longitude : ℝ)
    (cur : List String) :
    List (String × Geofence) → List String × List MonitorEvent
  | [] => ([], [])
  | (zid, g) :: rest =>
      let tail := checkZones agentId latitude longitude cur rest
      if isPointInGeofence latitude longitude g then
        (zid :: tail.1,
          (if zid ∈ cur then [] else [.enteredGeofence agentId zid]) ++
            tail.2)
      else
        (tail.1,
          (if zid ∈ cur then [.exitedGeofence agentId zid] else []) ++
            tail.2)

/-- `GeoEngine.checkGeofences`: emit the membership deltas for a sample and
replace the agent's membership set. -/
noncomputable def checkGeofences (st : GeoState) (s : MemStore)
    (agentId : String) (location : LocationData) : GeoState × MemStore :=
  let cur := (getAssoc agentId st.agentGeofences).getD []
  let r := checkZones agentId location.latitude location.longitude cur
    st.geofences
  ({ st with agentGeofences := setAssoc agentId r.1 st.agentGeofences },
    { s with events := s.events ++ r.2 })

/-! ### Service facade (`location-monitor.service.ts`) -/

/-- The state owned by a `LocationMonitorService`: the storage handle, the
geofence engine and the `initialized` flag. -/
structure SysState : Type where
  store : MemStore
  geo : GeoState
  running : Bool

/-- `LocationMonitorService.updateAgentState`: write the new snapshot.
`location.speed && location.speed > 0` is the truthy-and-positive test;
`currentState?.totalDistanceTraveled || 0` carries the old value forward. -/
noncomputable def updateAgentState (s : MemStore) (geo : GeoState)
    (agentId : String) (location : LocationData) (status : AgentStatus)
    (nowMs : ℝ) : MemStore :=
  let currentState := getAgentStateStore s agentId
  let activeGeofences := (getAgentGeofencesZ geo agentId).map Geofence.id
  saveAgentStateStore s agentId
    { agentId := agentId
      status := status
      lastLocation := some location
      lastUpdate := nowMs
      lastMovement :=
        if optTruthy location.speed ∧ location.speed.getD 0 > 0 then
          some nowMs
        else currentState.bind AgentStateSnapshot.lastMovement
      totalDistanceTraveled :=
        (currentState.map AgentStateSnapshot.totalDistanceTraveled).getD 0
      activeGeofences := activeGeofences }

/-- `LocationMonitorService.trackLocation`: the ingest pipeline — location
engine, then status detection, then (if enabled) the geofence check, then
the snapshot update. -/
noncomputable def serviceTrack (th : ThresholdConfig)
    (geofenceEnabled : Bool) (nowMs : ℝ) (sys : SysState) (agentId : String)
    (latitude longitude : ℝ) (timestamp : Option ℝ) :
    Except Unit (LocationData × SysState) :=
  match trackLocation th nowMs sys.store agentId latitude longitude
      timestamp with
  | .error e => .error e
  | .ok (location, s1) =>
      let r2 := detectStatus th s1 agentId location
      let r3 :=
        if geofenceEnabled then checkGeofences sys.geo r2.2 agentId location
        else (sys.geo, r2.2)
      let s4 := updateAgentState r3.2 r3.1 agentId location r2.1 nowMs
      .ok (location, { store := s4, geo := r3.1, running := sys.running })

/-- `LocationMonitorService.shutdown`: stop the watchdog, disconnect the
storage, drop the `initialized` flag. -/
def serviceShutdown (sys : SysState) : SysState :=
  { store := disconnectStore sys.store, geo := sys.geo, running := false }

/-! ### NaN-aware number model for geofence validation

`validateGeofence` checks its numeric conditions with raw JavaScript
comparisons (`<`, `>`, `<=`), whose behaviour on `NaN` (every comparison is
false) is not expressible over `ℝ`.  `JNum` models a JavaScript number as
`NaN`, one of the infinities, or a finite value (a rational, which covers
every finite IEEE double exactly). -/

/-- A JavaScript number: `NaN`, `±Infinity`, or a finite value. -/
inductive JNum : Type
  | nan
  | posInf
  | negInf
  | num (x : ℚ)
  deriving DecidableEq, Repr

/-- JavaScript `<`: false whenever either side is `NaN`. -/
def jlt : JNum → JNum → Bool
  | .nan, _ => false
  | _, .nan => false
  | .negInf, .negInf => false
  | .negInf, _ => true
  | _, .negInf => false
  | .posInf, _ => false
  | .num _, .posInf => true
  | .num a, .num b => a < b

/-- JavaScript `>`. -/
def jgt (a b : JNum) : Bool := jlt b a

/-- JavaScript `<=`: false whenever either side is `NaN`. -/
def jle : JNum → JNum → Bool
  | .nan, _ => false
  | _, .nan => false
  | .negInf, _ => true
  | _, .negInf => false
  | _, .posInf => true
  | .posInf, _ => false
  | .num a, .num b => a ≤ b

/-- A finite `JNum` (JavaScript `isFinite`; `NaN` is not finite). -/
def JNum.isFinite : JNum → Bool
  | .num _ => true
  | _ => false

/-- A coordinate pair with JavaScript-number components. -/
structure JCoord : Type where
  latitude : JNum
  longitude : JNum
  deriving DecidableEq, Repr

/-- The circular geofence variant over JavaScript numbers. -/
structure JCircularGeofence : Type where
  id : String
  name : String
  center : JCoord
  radius : JNum
  deriving DecidableEq, Repr

/-- The polygon geofence variant over JavaScript numbers. -/
structure JPolygonGeofence : Type where
  id : String
  name : String
  coordinates : List JCoord
  deriving DecidableEq, Repr

/-- The tagged union over JavaScript numbers. -/
inductive JGeofence : Type
  | circular (g : JCircularGeofence)
  | polygon (g : JPolygonGeofence)
  deriving DecidableEq, Repr

/-- A `JCoord` out of the latitude/longitude ranges under JavaScript
comparison semantics (the vertex/center test of `validateGeofence`). -/
def jCoordOutOfRange (c : JCoord) : Bool :=
  jlt c.latitude (.num (-90)) || jgt c.latitude (.num 90) ||
    jlt c.longitude (.num (-180)) || jgt c.longitude (.num 180)

/-- `validateGeofence` over JavaScript numbers: the accumulated error list
(the source pushes at most one `Invalid vertex coordinates` thanks to its
`break`). -/
def validateGeofenceErrorsJ : JGeofence → List String
  | .circular g =>
      (if g.id = "" ∨ g.name = "" then ["Geofence must have id and name"]
       else []) ++
      (if jle g.radius (.num 0) then
        ["Circular geofence radius must be positive"]
       else []) ++
      (if jCoordOutOfRange g.center then ["Invalid center coordinates"]
       else [])
  | .polygon g =>
      (if g.id = "" ∨ g.name = "" then ["Geofence must have id and name"]
       else []) ++
      (if g.coordinates.length < 3 then
        ["Polygon must have at least 3 vertices"]
       else []) ++
      (if g.coordinates.any jCoordOutOfRange then
        ["Invalid vertex coordinates"]
       else [])

/-- `validateGeofence` validity over JavaScript numbers. -/
def validateGeofenceValidJ (g : JGeofence) : Bool :=
  validateGeofenceErrorsJ g = ([] : List String)

/-- A valid coordinate per the data model of the specification: both
components finite and within range.  (`Modelled from the spec`: the
specification's **Coordinate** entry; this definition exists to be compared
with what `validateGeofence` actually enforces.) -/
def specValidCoordinateJ (c : JCoord) : Bool :=
  c.latitude.isFinite && c.longitude.isFinite &&
    jle (.num (-90)) c.latitude && jle c.latitude (.num 90) &&
    jle (.num (-180)) c.longitude && jle c.longitude (.num 180)

/-! ### Derived definitions used by the statements of the claims -/

/-- A service state as produced by `initialize` on a fresh in-memory
adapter: empty store, no zones, running. -/
def freshSys : SysState :=
  { store := emptyStore, geo := emptyGeoState, running := true }

/-- The events appended by `emitSpecificStatusEvents`, as a single list. -/
def specificEventList (a : String) (o n : AgentStatus) :
    List MonitorEvent :=
  (if n = .unreachable ∧ o ≠ .unreachable then [.agentUnreachable a]
   else []) ++
  (if (o = .unreachable ∨ o = .offline) ∧ (n = .active ∨ n = .moving) then
    [.agentBackOnline a]
   else []) ++
  (if n = .idle ∧ o ≠ .idle then [.agentIdle a] else []) ++
  (if n = .active ∧ (o = .idle ∨ o = .stopped) then [.agentActive a]
   else [])

/-- An event satisfies invariant I2 when, if it is a `status.changed`, its
old and new statuses differ. -/
def statusChangedOk : MonitorEvent → Prop
  | .statusChanged _ o n _ _ => o ≠ n
  | _ => True

/-- Invariant I2 over a whole event log. -/
def eventsAllOk : List MonitorEvent → Prop
  | [] => True
  | e :: rest => statusChangedOk e ∧ eventsAllOk rest

/-- `registerGeofence` as observed by a caller that catches the exception:
on validation failure the engine state is unchanged. -/
noncomputable def registerOrKeep (st : GeoState) (g : Geofence) : GeoState :=
  match registerGeofence st g with
  | .ok st' => st'
  | .error _ => st

/-- An operation of the geofence engine, for trace-level statements. -/
inductive GeoOp : Type
  | register (g : Geofence)
  | remove (zoneId : String)
  | clearAgent (agentId : String)
  | check (agentId : String) (location : LocationData)

/-- Apply one geofence-engine operation to the engine state and the store
(whose event log collects the published events). -/
noncomputable def applyGeoOp (st : GeoState × MemStore) :
    GeoOp → GeoState × MemStore
  | .register g => (registerOrKeep st.1 g, st.2)
  | .remove zid => (removeGeofence st.1 zid, st.2)
  | .clearAgent aid => (clearAgentGeofences st.1 aid, st.2)
  | .check aid loc => checkGeofences st.1 st.2 aid loc

/-- Run a sequence of geofence-engine operations from a fresh engine and a
fresh store. -/
noncomputable def runGeoOps (ops : List GeoOp) : GeoState × MemStore :=
  ops.foldl applyGeoOp (emptyGeoState, emptyStore)

/-- The direction (`true` = enter, `false` = exit) an event contributes to
the (agent, zone) projection, if any. -/
def geoDirFor (a z : String) : MonitorEvent → Option Bool
  | .enteredGeofence a' z' => if a' = a ∧ z' = z then some true else none
  | .exitedGeofence a' z' => if a' = a ∧ z' = z then some false else none
  | _ => none

/-- The enter/exit directions of an event log restricted to one
(agent, zone) pair, in order. -/
def projDirs (evs : List MonitorEvent) (a z : String) : List Bool :=
  evs.filterMap (geoDirFor a z)

/-- Alternation automaton: the state is `some inside?`, or `none` once the
sequence has violated strict enter/exit alternation. -/
def altStep : Option Bool → Bool → Option Bool
  | some false, true => some true
  | some true, false => some false
  | _, _ => none

/-- Run the alternation automaton from "outside". -/
def altMem (l : List Bool) : Option Bool := l.foldl altStep (some false)

/-- A direction sequence is a strict alternation starting with an enter. -/
def strictAlternation (l : List Bool) : Prop := (altMem l).isSome = true

/-- Operations that do not delete zones or membership sets. -/
def nonRemoval : GeoOp → Prop
  | .remove _ => False
  | .clearAgent _ => False
  | _ => True

/-- Fold a sequence of accepted samples for one agent through the memory
adapter's `saveLocation`. -/
def runSaves (aid : String) (samples : List LocationData) (s : MemStore) :
    MemStore :=
  samples.foldl (fun st loc => saveLocationStore st aid loc) s

/-- The total distance the specification's invariant I5 predicts: the sum
of the great-circle distances between consecutive accepted samples.
(`Modelled from the spec`: invariant I5; this definition exists to be
compared with what the adapter stores.) -/
noncomputable def specTotalDistance : List LocationData → ℝ
  | [] => 0
  | [_] => 0
  | a :: b :: rest =>
      calculateDistance a.latitude a.longitude b.latitude b.longitude +
        specTotalDistance (b :: rest)

/-- Whether an event log contains an `agent.back-online` event for the
given agent. -/
def hasBackOnline (aid : String) : List MonitorEvent → Bool
  | [] => false
  | .agentBackOnline a :: rest => a = aid || hasBackOnline aid rest
  | _ :: rest => hasBackOnline aid rest

/-- The linking invariant behind the alternation property: registry keys
are distinct, the alternation automaton over the (a, z) projection of the
event log is exactly in the "inside?" state recorded by the membership
index, and membership implies registration. -/
def C5Inv (a z : String) (st : GeoState) (s : MemStore) : Prop :=
  (st.geofences.map Prod.fst).Nodup ∧
  altMem (projDirs s.events a z) =
    some (decide (z ∈ (getAssoc a st.agentGeofences).getD [])) ∧
  (z ∈ (getAssoc a st.agentGeofences).getD [] →
    (getAssoc z st.geofences).isSome = true)

/-! ### Concrete instances used by counterexamples and witnesses -/

/-- A snapshot of an ACTIVE agent whose `lastUpdate` and `lastMovement`
are both very stale. -/
def c4Snapshot : AgentStateSnapshot :=
  { agentId := "a"
    status := .active
    lastLocation := none
    lastUpdate := 1000
    lastMovement := some 1000
    totalDistanceTraveled := 0
    activeGeofences := [] }

/-- A store holding only the stale snapshot above. -/
def c4Store : MemStore :=
  { emptyStore with states := [("a", c4Snapshot)] }

/-- A store in which agent "a" has the persisted status STOPPED and an
empty event log. -/
def c3wStore : MemStore :=
  { emptyStore with statuses := [("a", (.stopped, 0))] }

/-- A valid square polygon zone with id "z" (latitudes and longitudes
from 0 to 10). -/
def zSquare : Geofence :=
  .polygon
    { id := "z"
      name := "Square"
      coordinates := [⟨0, 0⟩, ⟨0, 10⟩, ⟨10, 10⟩, ⟨10, 0⟩] }

/-- The same zone under a different name (same id "z"). -/
def zSquare2 : Geofence :=
  .polygon
    { id := "z"
      name := "SquareBis"
      coordinates := [⟨0, 0⟩, ⟨0, 10⟩, ⟨10, 10⟩, ⟨10, 0⟩] }

/-- A triangle zone with a fresh id "t". -/
def zTriangle : Geofence :=
  .polygon
    { id := "t"
      name := "Triangle"
      coordinates := [⟨0, 0⟩, ⟨0, 10⟩, ⟨10, 0⟩] }

/-- A sample inside `zSquare`. -/
def c5loc : LocationData :=
  { agentId := "a", latitude := 5, longitude := 5, timestamp := 0,
    speed := none, heading := none }

/-- Enter, remove the zone, re-register it, enter again: the trace behind
the C5 counterexample. -/
noncomputable def c5ops : List GeoOp :=
  [.register zSquare, .check "a" c5loc, .remove "z", .register zSquare,
    .check "a" c5loc]

/-- First C6 sample: ts 1000 at (0, 0). -/
def c6s1 : LocationData :=
  { agentId := "a", latitude := 0, longitude := 0, timestamp := 1000,
    speed := none, heading := none }

/-- Second C6 sample: ts 2000 at (0, 180), half the globe away. -/
def c6s2 : LocationData :=
  { agentId := "a", latitude := 0, longitude := 180, timestamp := 2000,
    speed := none, heading := none }

/-- Geofence registry holding `zSquare` and an empty membership index. -/
def c7State : GeoState :=
  { geofences := [("z", zSquare)], agentGeofences := [] }

/-- A circular zone with a `NaN` center latitude, nonempty id/name and a
positive radius. -/
def c9NaNZone : JGeofence :=
  .circular
    { id := "z"
      name := "Zone"
      center := { latitude := .nan, longitude := .num 0 }
      radius := .num 100 }

/-- The system state behind the C2 counterexample: agent "a" has a stored
sample at ts 1000 and the persisted status UNREACHABLE. -/
def c2Sys : SysState :=
  { store :=
      { emptyStore with
          locations :=
            [("a", { agentId := "a", latitude := 40.7128,
                     longitude := -74.0060, timestamp := 1000,
                     speed := none, heading := none })]
          statuses := [("a", (.unreachable, 31000))] }
    geo := emptyGeoState
    running := true }

/-! ### Helper lemmas about the store primitives -/

theorem getAssoc_setAssoc_self {α : Type} (k : String) (v : α)
    (l : List (String × α)) : getAssoc k (setAssoc k v l) = some v := by
  induction l with
  | nil => simp [setAssoc, getAssoc]
  | cons p rest ih =>
      by_cases h : k = p.1
      · simp [setAssoc, getAssoc, h]
      · simpa [setAssoc, getAssoc, h] using ih

theorem getAssoc_setAssoc_ne {α : Type} {k k' : String} (v : α)
    (l : List (String × α)) (h : k ≠ k') :
    getAssoc k (setAssoc k' v l) = getAssoc k l := by
  induction l with
  | nil => simp [setAssoc, getAssoc, h]
  | cons p rest ih =>
      by_cases h' : k' = p.1
      · subst h'
        simp [setAssoc, getAssoc, h]
      · by_cases h'' : k = p.1 <;> simp [setAssoc, getAssoc, h', h'', ih]

theorem setAssoc_fresh {α : Type} (k : String) (v : α)
    (l : List (String × α)) (h : getAssoc k l = none) :
    setAssoc k v l = l ++ [(k, v)] := by
  induction l with
  | nil => simp [setAssoc]
  | cons p rest ih =>
      by_cases h' : k = p.1
      · simp [getAssoc, h'] at h
      · simp only [getAssoc, h', if_neg] at h
        simp [setAssoc, h', ih h]

theorem delAssoc_append_self {α : Type} (k : String) (v : α)
    (l : List (String × α)) :
    delAssoc k (l ++ [(k, v)]) = delAssoc k l := by
  simp [delAssoc]

theorem delAssoc_of_not_mem {α : Type} (k : String)
    (l : List (String × α)) (h : getAssoc k l = none) :
    delAssoc k l = l := by
  induction l with
  | nil => simp [delAssoc]
  | cons p rest ih =>
      by_cases h' : k = p.1
      · simp [getAssoc, h'] at h
      · simp only [getAssoc, h', if_neg] at h
        simp [delAssoc] at ih ⊢
        exact ⟨fun hk => (h' hk.symm).elim, ih h⟩

/-! ### Helper lemmas about the engine operations -/

theorem publishEventStore_statuses (s : MemStore) (e : MonitorEvent) :
    (publishEventStore s e).statuses = s.statuses := rfl

theorem emitSpecific_statuses (s : MemStore) (a : String)
    (o n : AgentStatus) :
    (emitSpecificStatusEvents s a o n).statuses = s.statuses := by
  unfold emitSpecificStatusEvents
  split_ifs <;> rfl

theorem updateStatus_statuses (s : MemStore) (a : String)
    (o n : AgentStatus) (ts : ℝ) (r : Option String) :
    (updateStatus s a o n ts r).statuses =
      setAssoc a (n, ts) s.statuses := by
  unfold updateStatus
  rw [emitSpecific_statuses]
  rfl

theorem emitSpecific_events (s : MemStore) (a : String) (o n : AgentStatus) :
    (emitSpecificStatusEvents s a o n).events =
      s.events ++ specificEventList a o n := by
  unfold emitSpecificStatusEvents specificEventList
  split_ifs <;> simp [publishEventStore]

theorem updateStatus_events (s : MemStore) (a : String) (o n : AgentStatus)
    (ts : ℝ) (r : Option String) :
    (updateStatus s a o n ts r).events =
      s.events ++ [.statusChanged a o n ts r] ++ specificEventList a o n := by
  unfold updateStatus
  rw [emitSpecific_events]
  simp [publishEventStore, saveStatusStore]

/-! ### Further helper lemmas -/

theorem eventsAllOk_append (l1 l2 : List MonitorEvent) :
    eventsAllOk (l1 ++ l2) ↔ eventsAllOk l1 ∧ eventsAllOk l2 := by
  induction l1 with
  | nil => simp [eventsAllOk]
  | cons e rest ih => simp [eventsAllOk, ih, and_assoc]

theorem specificEventList_ok (a : String) (o n : AgentStatus) :
    eventsAllOk (specificEventList a o n) := by
  unfold specificEventList
  split_ifs <;> simp [eventsAllOk, statusChangedOk]

theorem updateStatus_eventsAllOk (s : MemStore) (a : String)
    (o n : AgentStatus) (ts : ℝ) (r : Option String) (hev : eventsAllOk s.events)
    (hne : o ≠ n) : eventsAllOk (updateStatus s a o n ts r).events := by
  rw [updateStatus_events, eventsAllOk_append, eventsAllOk_append]
  exact ⟨⟨hev, hne, trivial⟩, specificEventList_ok a o n⟩

/-! ### C9 — geofence validation and NaN centers -/

/-- C9 counterexample: `validateGeofence` accepts a circular zone whose
center latitude is `NaN` (every JavaScript comparison with `NaN` is false,
so the range check raises no error), although `NaN` is not a valid finite
coordinate; the claim that validity requires a valid (finite) center is
therefore false. -/
theorem C9_counterexample :
    validateGeofenceValidJ c9NaNZone = true ∧
      specValidCoordinateJ
        { latitude := JNum.nan, longitude := JNum.num 0 } = false := by
  decide

/-- C9 (amended): `validateGeofence` returns valid for a circular zone
exactly when id and name are nonempty, the radius does not compare `<= 0`
(so `NaN` and `+Infinity` radii also pass), and neither center component
compares out of the latitude/longitude ranges — under JavaScript
comparison semantics, which accept `NaN` components and reject only the
infinities; finiteness of the center is not enforced. -/
theorem C9_amended_valid_iff (g : JCircularGeofence) :
    validateGeofenceValidJ (.circular g) = true ↔
      g.id ≠ "" ∧ g.name ≠ "" ∧ jle g.radius (.num 0) = false ∧
        jCoordOutOfRange g.center = false := by
  simp only [validateGeofenceValidJ, validateGeofenceErrorsJ,
    decide_eq_true_eq, List.append_eq_nil]
  split_ifs with h1 h2 h3 <;> simp_all <;> tauto

/-! ### C10 — disconnect erases all in-memory data -/

/-- C10: for the in-memory backend, `disconnect` (as invoked by the service
`shutdown`) erases every location, status, snapshot, and stats entry and
drops all subscribers; afterwards (and hence after a fresh `initialize`,
which touches no data) every per-agent read is absent and `getAllAgents`
is empty. -/
theorem C10_disconnect_erases_all (sys : SysState) (agentId : String) :
    getLastLocationStore (serviceShutdown sys).store agentId = none ∧
      getStatusStore (serviceShutdown sys).store agentId = none ∧
      getAgentStateStore (serviceShutdown sys).store agentId = none ∧
      getAgentStatsStore (serviceShutdown sys).store agentId = none ∧
      getAllAgentsStore (serviceShutdown sys).store = [] ∧
      (serviceShutdown sys).store.subscriberCount = 0 := by
  simp [serviceShutdown, disconnectStore, getLastLocationStore,
    getStatusStore, getAgentStateStore, getAgentStatsStore,
    getAllAgentsStore, getAssoc]

/-! ### C3 — status.changed events carry oldStatus ≠ newStatus -/

/-- C3 counterexample: `setStatus` on an agent with no persisted status
substitutes OFFLINE for the old status and, because `null !== OFFLINE`
passes the guard, emits a `status.changed` event with
oldStatus = newStatus = OFFLINE. -/
theorem C3_counterexample :
    (setStatus emptyStore "a" .offline 5 none).events =
      [.statusChanged "a" .offline .offline 5 none] := by
  simp [setStatus, getStatusStore, getAssoc, emptyStore, updateStatus_events,
    specificEventList]

/-- C3 (amended): every `status.changed` event emitted by
`checkStatusByTime` carries oldStatus ≠ newStatus, and so does every one
emitted by `detectStatus` or `setStatus` for an agent that already has a
persisted status; when no status is persisted, the old status is a
substituted default (ACTIVE for `detectStatus`, OFFLINE for `setStatus`)
and may coincide with the new one. -/
theorem C3_amended_no_noop_transitions :
    (∀ (th : ThresholdConfig) (nowMs : ℝ) (s : MemStore) (aid : String),
      eventsAllOk s.events →
        eventsAllOk ((checkStatusByTime th nowMs s aid).2).events) ∧
    (∀ (th : ThresholdConfig) (s : MemStore) (aid : String)
        (loc : LocationData) (c : AgentStatus),
      getStatusStore s aid = some c → eventsAllOk s.events →
        eventsAllOk ((detectStatus th s aid loc).2).events) ∧
    (∀ (s : MemStore) (aid : String) (status : AgentStatus) (nowMs : ℝ)
        (reason : Option String) (c : AgentStatus),
      getStatusStore s aid = some c → eventsAllOk s.events →
        eventsAllOk (setStatus s aid status nowMs reason).events) := by
  refine ⟨?_, ?_, ?_⟩
  · intro th nowMs s aid hev
    unfold checkStatusByTime
    cases hst : getAgentStateStore s aid with
    | none => exact hev
    | some st =>
        simp only
        split_ifs
        all_goals
          first
            | exact hev
            | exact updateStatus_eventsAllOk _ _ _ _ _ _ hev (by assumption)
  · intro th s aid loc c hc hev
    unfold detectStatus
    simp only [hc, ne_eq, Option.some.injEq, Option.getD_some]
    split_ifs with hne
    · exact hev
    · exact updateStatus_eventsAllOk _ _ _ _ _ _ hev hne
  · intro s aid status nowMs reason c hc hev
    unfold setStatus
    simp only [hc]
    split_ifs with hne
    · exact updateStatus_eventsAllOk _ _ _ _ _ _ hev hne
    · exact hev

/-- C3 witness: the amended theorem applied to a concrete store in which
agent "a" has the persisted status STOPPED; the manual override to MOVING
emits only well-formed events. -/
theorem C3_witness :
    eventsAllOk (setStatus c3wStore "a" .moving 7 none).events :=
  C3_amended_no_noop_transitions.2.2 c3wStore "a" .moving 7 none .stopped
    (by simp [c3wStore, getStatusStore, getAssoc, emptyStore])
    (by simp [c3wStore, emptyStore, eventsAllOk])

/-! ### C4 — prolonged silence: OFFLINE vs IDLE in the time-driven check -/

theorem checkByTime_stale (th : ThresholdConfig) (nowMs : ℝ)
    (s : MemStore) (aid : String) (st : AgentStateSnapshot)
    (hst : getAgentStateStore s aid = some st) (hnz : ¬ st.lastUpdate = 0)
    (hoff : isOlderThan nowMs st.lastUpdate th.offlineAfter)
    (hcur : st.status ≠ .offline) :
    (checkStatusByTime th nowMs s aid).1 =
      if optTruthy st.lastMovement ∧
          isOlderThan nowMs (st.lastMovement.getD 0) th.idleAfter ∧
          (st.status = .active ∨ st.status = .moving) then
        .idle
      else .offline := by
  unfold checkStatusByTime
  simp only [hst, if_neg hnz]
  split_ifs <;> simp_all

/-- C4 counterexample: an ACTIVE agent whose `lastUpdate` is far older than
`offlineAfter` and whose `lastMovement` is older than `idleAfter` is
classified IDLE, not OFFLINE: the idle check runs last and overwrites the
OFFLINE decision. -/
theorem C4_counterexample :
    (checkStatusByTime defaultThresholds 1000000 c4Store "a").1 =
        .idle ∧ AgentStatus.idle ≠ .offline := by
  constructor
  · rw [checkByTime_stale defaultThresholds 1000000 c4Store "a" c4Snapshot
      (by simp [c4Store, getAgentStateStore, getAssoc, emptyStore])
      (by norm_num [c4Snapshot])
      (by norm_num [isOlderThan, c4Snapshot, defaultThresholds])
      (by decide)]
    rw [if_pos]
    refine ⟨?_, ?_, ?_⟩
    · norm_num [c4Snapshot, optTruthy]
    · norm_num [c4Snapshot, isOlderThan, defaultThresholds]
    · simp [c4Snapshot]
  · decide

/-- C4 (amended): when the snapshot's `lastUpdate` is older than
`offlineAfter` and the current status is not OFFLINE, `checkStatusByTime`
yields OFFLINE — unless `lastMovement` is present, older than `idleAfter`,
and the current status is ACTIVE or MOVING, in which case the
later-evaluated idle rule wins and the result is IDLE. -/
theorem C4_amended_offline_unless_idle (th : ThresholdConfig) (nowMs : ℝ)
    (s : MemStore) (aid : String) (st : AgentStateSnapshot)
    (hst : getAgentStateStore s aid = some st) (hnz : ¬ st.lastUpdate = 0)
    (hoff : isOlderThan nowMs st.lastUpdate th.offlineAfter)
    (hcur : st.status ≠ .offline) :
    (checkStatusByTime th nowMs s aid).1 =
      if optTruthy st.lastMovement ∧
          isOlderThan nowMs (st.lastMovement.getD 0) th.idleAfter ∧
          (st.status = .active ∨ st.status = .moving) then
        .idle
      else .offline :=
  checkByTime_stale th nowMs s aid st hst hnz hoff hcur

/-- C4 witness: the amended theorem at the concrete stale-ACTIVE store. -/
theorem C4_witness :
    (checkStatusByTime defaultThresholds 1000000 c4Store "a").1 =
      if optTruthy c4Snapshot.lastMovement ∧
          isOlderThan 1000000 (c4Snapshot.lastMovement.getD 0)
            defaultThresholds.idleAfter ∧
          (c4Snapshot.status = .active ∨ c4Snapshot.status = .moving) then
        .idle
      else .offline :=
  C4_amended_offline_unless_idle defaultThresholds 1000000 c4Store "a"
    c4Snapshot
    (by simp [c4Store, getAgentStateStore, getAssoc, emptyStore])
    (by norm_num [c4Snapshot])
    (by norm_num [isOlderThan, c4Snapshot, defaultThresholds])
    (by decide)

/-! ### C7 — register/remove round trip on the zone registry -/

theorem zSquare_valid : validateGeofenceValid zSquare = true := by
  simp only [validateGeofenceValid, validateGeofenceErrors, zSquare,
    decide_eq_true_eq]
  norm_num
  decide

theorem zSquare2_valid : validateGeofenceValid zSquare2 = true := by
  simp only [validateGeofenceValid, validateGeofenceErrors, zSquare2,
    decide_eq_true_eq]
  norm_num
  decide

theorem zSquare_id : zSquare.id = "z" := rfl

theorem zSquare2_id : zSquare2.id = "z" := rfl

theorem zTriangle_id : zTriangle.id = "t" := rfl

theorem zTriangle_valid : validateGeofenceValid zTriangle = true := by
  simp only [validateGeofenceValid, validateGeofenceErrors, zTriangle,
    decide_eq_true_eq]
  norm_num
  decide

/-- C7 counterexample: when a zone with the same id "z" is already
registered, registering the new zone overwrites it, and removing "z"
afterwards leaves an empty registry instead of restoring the original
zone: `getGeofences` does not return to its pre-registration value. -/
theorem C7_counterexample :
    registerGeofence c7State zSquare2 =
        .ok { geofences := [("z", zSquare2)], agentGeofences := [] } ∧
      getGeofences (removeGeofence
          { geofences := [("z", zSquare2)], agentGeofences := [] } "z") ≠
        getGeofences c7State := by
  constructor
  · simp [registerGeofence, zSquare2_valid, zSquare2_id, c7State, setAssoc]
  · simp [removeGeofence, delAssoc, getGeofences, c7State]

/-- C7 (amended): registering a zone whose id is not yet in the registry
and then removing that id restores `getGeofences` to its pre-registration
value; when the id was already registered, the original zone is lost. -/
theorem C7_amended_roundtrip_fresh (st : GeoState) (g : Geofence)
    (st1 : GeoState) (hfresh : getAssoc g.id st.geofences = none)
    (hreg : registerGeofence st g = .ok st1) :
    getGeofences (removeGeofence st1 g.id) = getGeofences st := by
  unfold registerGeofence at hreg
  split_ifs at hreg
  · cases hreg
    unfold removeGeofence getGeofences
    simp only
    rw [setAssoc_fresh g.id g st.geofences hfresh, delAssoc_append_self,
      delAssoc_of_not_mem _ _ hfresh]

/-- C7 witness: the amended theorem for the fresh id "t" over a registry
already holding "z". -/
theorem C7_witness :
    getGeofences (removeGeofence
        { geofences := [("z", zSquare), ("t", zTriangle)],
          agentGeofences := [] } "t") =
      getGeofences c7State :=
  C7_amended_roundtrip_fresh c7State zTriangle
    { geofences := [("z", zSquare), ("t", zTriangle)], agentGeofences := [] }
    (by simp [getAssoc, c7State, zTriangle_id])
    (by simp [registerGeofence, zTriangle_valid, zTriangle_id, c7State,
      setAssoc])

/-! ### C8 — invalid input is rejected and nothing is persisted -/

/-- C8: a `track` call with an empty agent id or out-of-range coordinates
fails with `InvalidInput` before any write: the pipeline returns an error
and no successor state, so the stored location, status, snapshot, and
stats of every agent are exactly as before the call (the validation throw
precedes every storage operation in the source). -/
theorem C8_invalid_input_rejected (th : ThresholdConfig)
    (geofenceEnabled : Bool) (nowMs : ℝ) (sys : SysState) (aid : String)
    (lat lon : ℝ) (ts : Option ℝ)
    (h : aid = "" ∨ ¬ isValidCoordinate lat lon) :
    serviceTrack th geofenceEnabled nowMs sys aid lat lon ts =
      .error () := by
  have hv : ¬ validateInput aid lat lon := by
    rcases h with h | h
    · exact fun hv => hv.1 h
    · exact fun hv => h hv.2
  unfold serviceTrack trackLocation
  rw [if_neg hv]

/-- C8 witness: `track("a", 91, 0)` is rejected. -/
theorem C8_witness :
    serviceTrack defaultThresholds true 0 freshSys "a" 91 0 none =
      .error () :=
  C8_invalid_input_rejected defaultThresholds true 0 freshSys "a" 91 0 none
    (Or.inr (by norm_num [isValidCoordinate]))

/-! ### Pipeline lemmas: what the status engine sees after the save -/

theorem getStatusStore_publish (s : MemStore) (e : MonitorEvent)
    (aid : String) : getStatusStore (publishEventStore s e) aid =
      getStatusStore s aid := rfl

theorem getStatusStore_saveLocation (s : MemStore) (aid' : String)
    (loc : LocationData) (aid : String) :
    getStatusStore (saveLocationStore s aid' loc) aid =
      getStatusStore s aid := rfl

theorem getStatusStore_checkGeofences (g : GeoState) (s : MemStore)
    (aid' : String) (loc : LocationData) (aid : String) :
    getStatusStore ((checkGeofences g s aid' loc).2) aid =
      getStatusStore s aid := rfl

theorem getStatusStore_updateAgentState (s : MemStore) (geo : GeoState)
    (aid' : String) (loc : LocationData) (st : AgentStatus) (nowMs : ℝ)
    (aid : String) :
    getStatusStore (updateAgentState s geo aid' loc st nowMs) aid =
      getStatusStore s aid := rfl

theorem getStatusStore_updateStatus_self (s : MemStore) (aid : String)
    (o n : AgentStatus) (ts : ℝ) (r : Option String) :
    getStatusStore (updateStatus s aid o n ts r) aid = some n := by
  unfold getStatusStore
  rw [updateStatus_statuses, getAssoc_setAssoc_self]
  rfl

theorem getLastLocation_publish (s : MemStore) (e : MonitorEvent)
    (aid : String) : getLastLocationStore (publishEventStore s e) aid =
      getLastLocationStore s aid := rfl

theorem getLastLocation_save_self (s : MemStore) (aid : String)
    (loc : LocationData) :
    getLastLocationStore (saveLocationStore s aid loc) aid = some loc := by
  unfold getLastLocationStore saveLocationStore
  exact getAssoc_setAssoc_self aid loc s.locations

/-- The classifier applied to a sample and that same sample as "last":
the silence gap is `0`, so with a nonnegative `unreachableAfter` the
back-online branch never fires and the speed test decides. -/
theorem determineStatus_self (th : ThresholdConfig) (loc : LocationData)
    (huA : 0 ≤ th.unreachableAfter) :
    determineStatus th loc (some loc) =
      if loc.speed.getD 0 ≥ th.minSpeed then .moving else .stopped := by
  show (if loc.timestamp - loc.timestamp > th.unreachableAfter then
      AgentStatus.active
    else if loc.speed.getD 0 ≥ th.minSpeed then .moving else .stopped) = _
  rw [if_neg]
  rw [sub_self]
  exact fun hlt => absurd hlt (not_lt.mpr huA)

/-- `detectStatus` on a store in which the agent's stored "last" sample is
the sample under classification, with no persisted status and an absent
speed: the result is STOPPED via the default-ACTIVE transition. -/
theorem detectStatus_fresh_result (th : ThresholdConfig) (s' : MemStore)
    (aid : String) (loc : LocationData)
    (hst : getStatusStore s' aid = none)
    (hll : getLastLocationStore s' aid = some loc)
    (hspd : loc.speed = none)
    (huA : 0 ≤ th.unreachableAfter) (hms : 0 < th.minSpeed) :
    detectStatus th s' aid loc =
      (.stopped, updateStatus s' aid .active .stopped loc.timestamp none) := by
  unfold detectStatus
  rw [hll, hst]
  simp only [determineStatus_self th loc huA, hspd, Option.getD_none]
  rw [if_neg (not_le.mpr hms)]
  simp [Option.getD]

/-- `trackLocation` for an agent with no stored sample: no metrics are
derived and the constructed sample carries the call's coordinates and the
current time. -/
theorem trackLocation_fresh (th : ThresholdConfig) (nowMs : ℝ)
    (s : MemStore) (aid : String) (lat lon : ℝ)
    (hv : validateInput aid lat lon)
    (hloc : getLastLocationStore s aid = none) :
    trackLocation th nowMs s aid lat lon none =
      .ok ({ agentId := aid, latitude := lat, longitude := lon,
             timestamp := nowMs, speed := none, heading := none },
        publishEventStore
          (saveLocationStore s aid
            { agentId := aid, latitude := lat, longitude := lon,
              timestamp := nowMs, speed := none, heading := none })
          (.locationReceived aid
            { agentId := aid, latitude := lat, longitude := lon,
              timestamp := nowMs, speed := none, heading := none }
            0 none)) := by
  unfold trackLocation
  rw [if_pos hv]
  simp only [hloc]

/-- The full `track` pipeline for a fresh agent: the returned sample
carries the call's coordinates and the persisted status afterwards is
STOPPED, because the location engine persists the sample before status
detection, so the detector compares the sample with itself (a zero time
gap and speed 0 below `minSpeed`). -/
theorem serviceTrack_fresh (th : ThresholdConfig) (ge : Bool) (nowMs : ℝ)
    (sys : SysState) (aid : String) (lat lon : ℝ)
    (ha : aid ≠ "") (hcoord : isValidCoordinate lat lon)
    (hstat : getStatusStore sys.store aid = none)
    (hloc : getLastLocationStore sys.store aid = none)
    (huA : 0 ≤ th.unreachableAfter) (hms : 0 < th.minSpeed) :
    (serviceTrack th ge nowMs sys aid lat lon none).map
        (fun r => (r.1.latitude, r.1.longitude,
          getStatusStore r.2.store aid)) =
      .ok (lat, lon, some .stopped) := by
  unfold serviceTrack
  rw [trackLocation_fresh th nowMs sys.store aid lat lon ⟨ha, hcoord⟩ hloc]
  have hst2 : getStatusStore
      (publishEventStore
        (saveLocationStore sys.store aid
          { agentId := aid, latitude := lat, longitude := lon,
            timestamp := nowMs, speed := none, heading := none })
        (.locationReceived aid
          { agentId := aid, latitude := lat, longitude := lon,
            timestamp := nowMs, speed := none, heading := none }
          0 none)) aid = none := by
    rw [getStatusStore_publish, getStatusStore_saveLocation]
    exact hstat
  have hll2 : getLastLocationStore
      (publishEventStore
        (saveLocationStore sys.store aid
          { agentId := aid, latitude := lat, longitude := lon,
            timestamp := nowMs, speed := none, heading := none })
        (.locationReceived aid
          { agentId := aid, latitude := lat, longitude := lon,
            timestamp := nowMs, speed := none, heading := none }
          0 none)) aid =
      some { agentId := aid, latitude := lat, longitude := lon,
             timestamp := nowMs, speed := none, heading := none } := by
    rw [getLastLocation_publish]
    exact getLastLocation_save_self _ _ _
  simp only [detectStatus_fresh_result th _ aid _ hst2 hll2 rfl huA hms,
    Except.map]
  cases ge with
  | false =>
      simp only [Bool.false_eq_true, if_false, getStatusStore_updateAgentState,
        getStatusStore_updateStatus_self]
  | true =>
      simp only [if_true, getStatusStore_updateAgentState,
        getStatusStore_checkGeofences, getStatusStore_updateStatus_self]

/-! ### C1 — first sample of a fresh agent -/

/-- C1 counterexample: the very first `track("a", 40.7128, -74.0060)` on a
fresh service returns a sample with those coordinates, but `getStatus`
afterwards is STOPPED, not ACTIVE: `trackLocation` persists the sample
before `detectStatus` runs, so the "no prior sample → ACTIVE" branch never
fires through the pipeline — the detector reads the just-saved sample as
the prior one and classifies by its absent speed. -/
theorem C1_counterexample :
    (serviceTrack defaultThresholds true 1000 freshSys "a"
          40.7128 (-74.0060) none).map
        (fun r => (r.1.latitude, r.1.longitude,
          getStatusStore r.2.store "a")) =
      .ok (40.7128, -74.0060, some .stopped) ∧
    AgentStatus.stopped ≠ .active := by
  refine ⟨?_, by decide⟩
  exact serviceTrack_fresh defaultThresholds true 1000 freshSys "a"
    40.7128 (-74.0060) (by decide)
    (by norm_num [isValidCoordinate])
    rfl rfl
    (by norm_num [defaultThresholds])
    (by norm_num [defaultThresholds])

/-- C1 (amended): for every fresh agent with no prior state, a first
`track(agentId, lat, lon)` with valid inputs returns a sample carrying
those coordinates, and immediately afterwards `getStatus(agentId)` returns
STOPPED: the location engine persists the sample before status detection,
so `detectStatus` sees the new sample as the prior one, computes a zero
time gap and a speed of 0 < `minSpeed`, and classifies STOPPED rather than
ACTIVE. -/
theorem C1_amended_first_track_stopped (th : ThresholdConfig) (ge : Bool)
    (nowMs : ℝ) (sys : SysState) (aid : String) (lat lon : ℝ)
    (ha : aid ≠ "") (hcoord : isValidCoordinate lat lon)
    (hstat : getStatusStore sys.store aid = none)
    (hloc : getLastLocationStore sys.store aid = none)
    (huA : 0 ≤ th.unreachableAfter) (hms : 0 < th.minSpeed) :
    (serviceTrack th ge nowMs sys aid lat lon none).map
        (fun r => (r.1.latitude, r.1.longitude,
          getStatusStore r.2.store aid)) =
      .ok (lat, lon, some .stopped) :=
  serviceTrack_fresh th ge nowMs sys aid lat lon ha hcoord hstat hloc huA hms

/-- C1 witness: the amended theorem at a concrete fresh call. -/
theorem C1_witness :
    (serviceTrack defaultThresholds false 500 freshSys "b" 10 20 none).map
        (fun r => (r.1.latitude, r.1.longitude,
          getStatusStore r.2.store "b")) =
      .ok (10, 20, some .stopped) :=
  C1_amended_first_track_stopped defaultThresholds false 500 freshSys "b"
    10 20 (by decide) (by norm_num [isValidCoordinate]) rfl rfl
    (by norm_num [defaultThresholds]) (by norm_num [defaultThresholds])

/-! ### C2 — "back online" on ingest after a silent gap -/

theorem calculateDistance_self (lat lon : ℝ) :
    calculateDistance lat lon lat lon = 0 := by
  unfold calculateDistance toRadians atan2
  simp [sub_self, Real.sqrt_one]

theorem calculateSpeed_zero (t : ℝ) (ht : t ≠ 0) :
    calculateSpeed 0 t = 0 := by
  unfold calculateSpeed
  rw [if_neg ht]
  simp

theorem ite_pair_fst {α β : Type} (c : Prop) [Decidable c] (n : α)
    (x y : β) : (if c then (n, x) else (n, y)).1 = n := by
  split_ifs <;> rfl

theorem updateAgentState_events (s : MemStore) (geo : GeoState)
    (aid : String) (loc : LocationData) (st : AgentStatus) (nowMs : ℝ) :
    (updateAgentState s geo aid loc st nowMs).events = s.events := rfl

/-- First branch of `determineStatus`: a silence gap beyond
`unreachableAfter` is classified ACTIVE ("back online"), whatever the
speed. -/
theorem determineStatus_gap (th : ThresholdConfig) (cur last : LocationData)
    (hgap : cur.timestamp - last.timestamp > th.unreachableAfter) :
    determineStatus th cur (some last) = .active := by
  show (if cur.timestamp - last.timestamp > th.unreachableAfter then
      AgentStatus.active
    else if cur.speed.getD 0 ≥ th.minSpeed then .moving else .stopped) = _
  rw [if_pos hgap]

/-- Through the pipeline, `detectStatus` runs after `saveLocation`, so the
"last" sample it reads is the new sample itself: the classification is by
speed alone, never by the silence gap. -/
theorem detectStatus_after_save_fst (th : ThresholdConfig) (s : MemStore)
    (aid : String) (loc : LocationData) (huA : 0 ≤ th.unreachableAfter) :
    (detectStatus th (saveLocationStore s aid loc) aid loc).1 =
      if loc.speed.getD 0 ≥ th.minSpeed then .moving else .stopped := by
  unfold detectStatus
  rw [getLastLocation_save_self]
  simp only [determineStatus_self th loc huA]
  exact ite_pair_fst _ _ _ _

/-- `detectStatus` on a store whose stored "last" sample is the sample
under classification, with a persisted non-STOPPED status and speed 0. -/
theorem detectStatus_stopped_result (th : ThresholdConfig) (s' : MemStore)
    (aid : String) (loc : LocationData) (c : AgentStatus)
    (hst : getStatusStore s' aid = some c) (hc : c ≠ .stopped)
    (hll : getLastLocationStore s' aid = some loc)
    (hspd : loc.speed = some 0)
    (huA : 0 ≤ th.unreachableAfter) (hms : 0 < th.minSpeed) :
    detectStatus th s' aid loc =
      (.stopped, updateStatus s' aid c .stopped loc.timestamp none) := by
  unfold detectStatus
  rw [hll, hst]
  simp only [determineStatus_self th loc huA, hspd, Option.getD_some]
  rw [if_neg (not_le.mpr hms)]
  rw [if_pos (by simpa using hc)]

/-- `trackLocation` for an agent whose stored sample is at the same
coordinates: the Haversine distance is 0, hence speed 0 and no heading. -/
theorem trackLocation_revisit (th : ThresholdConfig) (nowMs : ℝ)
    (s : MemStore) (aid : String) (lat lon T : ℝ) (last : LocationData)
    (hv : validateInput aid lat lon)
    (hll : getLastLocationStore s aid = some last)
    (hlat : last.latitude = lat) (hlon : last.longitude = lon)
    (hts : isValidTimestamp nowMs T) (hdt : T - last.timestamp > 0) :
    trackLocation th nowMs s aid lat lon (some T) =
      .ok ({ agentId := aid, latitude := lat, longitude := lon,
             timestamp := T, speed := some 0, heading := none },
        publishEventStore
          (saveLocationStore s aid
            { agentId := aid, latitude := lat, longitude := lon,
              timestamp := T, speed := some 0, heading := none })
          (.locationReceived aid
            { agentId := aid, latitude := lat, longitude := lon,
              timestamp := T, speed := some 0, heading := none }
            0 (some 0))) := by
  unfold trackLocation
  rw [if_pos hv]
  simp only [hll, if_pos hts, hlat, hlon, calculateDistance_self,
    if_pos hdt, calculateSpeed_zero (T - last.timestamp) (ne_of_gt hdt)]
  norm_num

/-- C2 counterexample: agent "a" has a prior sample at ts 1000 and the
persisted status UNREACHABLE; a `track` at the same coordinates with
ts 101000 — a silent gap of 100000 ms, far beyond `unreachableAfter` —
yields getStatus = STOPPED (not in {ACTIVE, MOVING}) and publishes no
`agent.back-online` event: the gap test compares the saved sample with
itself and never fires; the speed test sees 0 km/h. -/
theorem C2_counterexample :
    ((101000 : ℝ) - 1000 > defaultThresholds.unreachableAfter) ∧
    (serviceTrack defaultThresholds false 101000 c2Sys "a"
          40.7128 (-74.0060) (some 101000)).map
        (fun r => (getStatusStore r.2.store "a",
          hasBackOnline "a" r.2.store.events)) =
      .ok (some .stopped, false) ∧
    AgentStatus.stopped ≠ .active ∧ AgentStatus.stopped ≠ .moving := by
  refine ⟨by norm_num [defaultThresholds], ?_, by decide, by decide⟩
  unfold serviceTrack
  rw [trackLocation_revisit defaultThresholds 101000 c2Sys.store "a"
    40.7128 (-74.0060) 101000
    { agentId := "a", latitude := 40.7128, longitude := -74.0060,
      timestamp := 1000, speed := none, heading := none }
    ⟨by decide, by norm_num [isValidCoordinate]⟩
    (by rfl) rfl rfl
    (by norm_num [isValidTimestamp])
    (by norm_num)]
  have hst2 : getStatusStore
      (publishEventStore
        (saveLocationStore c2Sys.store "a"
          { agentId := "a", latitude := 40.7128, longitude := -74.0060,
            timestamp := 101000, speed := some 0, heading := none })
        (.locationReceived "a"
          { agentId := "a", latitude := 40.7128, longitude := -74.0060,
            timestamp := 101000, speed := some 0, heading := none }
          0 (some 0))) "a" = some .unreachable := by
    rw [getStatusStore_publish, getStatusStore_saveLocation]
    rfl
  have hll2 : getLastLocationStore
      (publishEventStore
        (saveLocationStore c2Sys.store "a"
          { agentId := "a", latitude := 40.7128, longitude := -74.0060,
            timestamp := 101000, speed := some 0, heading := none })
        (.locationReceived "a"
          { agentId := "a", latitude := 40.7128, longitude := -74.0060,
            timestamp := 101000, speed := some 0, heading := none }
          0 (some 0))) "a" =
      some { agentId := "a", latitude := 40.7128, longitude := -74.0060,
             timestamp := 101000, speed := some 0, heading := none } := by
    rw [getLastLocation_publish]
    exact getLastLocation_save_self _ _ _
  simp only [detectStatus_stopped_result defaultThresholds _ "a" _
    .unreachable hst2 (by decide) hll2 rfl
    (by norm_num [defaultThresholds]) (by norm_num [defaultThresholds]),
    Except.map, Bool.false_eq_true, if_false,
    getStatusStore_updateAgentState, getStatusStore_updateStatus_self,
    updateAgentState_events, updateStatus_events]
  simp [hasBackOnline, publishEventStore, saveLocationStore, c2Sys,
    emptyStore, specificEventList]

/-- C2 (amended): `determineStatus` does classify a silence gap beyond
`unreachableAfter` as ACTIVE; but in the `track` pipeline the sample is
persisted before detection, so the detector compares the sample with
itself and classifies by speed alone — MOVING iff speed ≥ `minSpeed`,
else STOPPED — and `agent.back-online` is published on such a track when
the persisted status was UNREACHABLE or OFFLINE and the sample's speed is
at least `minSpeed` (the new status is then MOVING). -/
theorem C2_amended_back_online (th : ThresholdConfig)
    (huA : 0 ≤ th.unreachableAfter) :
    (∀ (cur last : LocationData),
      cur.timestamp - last.timestamp > th.unreachableAfter →
        determineStatus th cur (some last) = .active) ∧
    (∀ (s : MemStore) (aid : String) (loc : LocationData),
      (detectStatus th (saveLocationStore s aid loc) aid loc).1 =
        if loc.speed.getD 0 ≥ th.minSpeed then .moving else .stopped) ∧
    (∀ (s : MemStore) (aid : String) (loc : LocationData) (c : AgentStatus),
      getStatusStore s aid = some c →
      (c = .unreachable ∨ c = .offline) →
      loc.speed.getD 0 ≥ th.minSpeed →
        MonitorEvent.agentBackOnline aid ∈
          ((detectStatus th (saveLocationStore s aid loc) aid loc).2).events)
    := by
  refine ⟨fun cur last h => determineStatus_gap th cur last h,
    fun s aid loc => detectStatus_after_save_fst th s aid loc huA, ?_⟩
  intro s aid loc c hst hco hspd
  have hcm : c ≠ .moving := by rcases hco with h | h <;> subst h <;> decide
  unfold detectStatus
  rw [getLastLocation_save_self]
  simp only [determineStatus_self th loc huA, if_pos hspd,
    getStatusStore_saveLocation, hst, Option.getD_some]
  rw [if_pos (by simpa using hcm)]
  simp only [updateStatus_events]
  refine List.mem_append.mpr (Or.inr ?_)
  unfold specificEventList
  rw [if_neg (by rintro ⟨h, -⟩; cases h)]
  rw [if_pos ⟨hco, Or.inr rfl⟩]
  simp

/-- C2 witness: the speed-based classification of the amended theorem at a
concrete store and sample. -/
theorem C2_witness :
    (detectStatus defaultThresholds
        (saveLocationStore emptyStore "a" c6s1) "a" c6s1).1 =
      if c6s1.speed.getD 0 ≥ defaultThresholds.minSpeed then .moving
      else .stopped :=
  (C2_amended_back_online defaultThresholds
    (by norm_num [defaultThresholds])).2.1 emptyStore "a" c6s1

/-! ### C6 — stored stats vs the specification's invariant I5 -/

theorem runSaves_stats (aid : String) :
    ∀ (samples : List LocationData) (s : MemStore) (st : AgentStats),
      getAgentStatsStore s aid = some st →
      ∃ u, getAgentStatsStore (runSaves aid samples s) aid =
        some { totalLocations := st.totalLocations + samples.length,
               totalDistance := st.totalDistance, lastUpdate := u } := by
  intro samples
  induction samples with
  | nil =>
      intro s st hst
      exact ⟨st.lastUpdate, by simpa [runSaves] using hst⟩
  | cons loc rest ih =>
      intro s st hst
      have hsave : getAgentStatsStore (saveLocationStore s aid loc) aid =
          some { totalLocations := st.totalLocations + 1,
                 totalDistance := st.totalDistance,
                 lastUpdate := loc.timestamp } := by
        unfold getAgentStatsStore saveLocationStore
        simp only
        rw [getAssoc_setAssoc_self]
        unfold getAgentStatsStore at hst
        rw [hst]
        simp
      obtain ⟨u, hu⟩ := ih (saveLocationStore s aid loc) _ hsave
      refine ⟨u, ?_⟩
      have hrun : runSaves aid (loc :: rest) s =
          runSaves aid rest (saveLocationStore s aid loc) := rfl
      rw [hrun, hu]
      simp [List.length_cons]
      ring_nf

/-- C6 (amended): after any sequence of accepted samples starting from a
fresh store, `totalLocations` equals the number of accepted samples, but
`totalDistance` is never incremented and stays at its initial value 0
(`saveLocation` touches only `totalLocations` and `lastUpdate`). -/
theorem C6_amended_totalLocations_only (aid : String)
    (samples : List LocationData) :
    ((getAgentStatsStore (runSaves aid samples emptyStore) aid).map
        (fun st => (st.totalLocations, st.totalDistance))) =
      if samples.isEmpty then none
      else some (samples.length, (0 : ℝ)) := by
  cases samples with
  | nil => simp [runSaves, getAgentStatsStore, emptyStore, getAssoc]
  | cons loc rest =>
      have h1 : getAgentStatsStore (saveLocationStore emptyStore aid loc)
          aid = some { totalLocations := 1, totalDistance := 0,
                       lastUpdate := loc.timestamp } := by
        unfold getAgentStatsStore saveLocationStore emptyStore
        simp only
        rw [getAssoc_setAssoc_self]
        rfl
      obtain ⟨u, hu⟩ :=
        runSaves_stats aid rest (saveLocationStore emptyStore aid loc) _ h1
      have hrun : runSaves aid (loc :: rest) emptyStore =
          runSaves aid rest (saveLocationStore emptyStore aid loc) := rfl
      rw [hrun, hu]
      simp [List.length_cons]
      ring_nf

/-- Haversine distance between (0, 0) and (0, 180): half the Earth's
circumference, `6371000 * π` meters, in particular nonzero. -/
theorem calculateDistance_antipodal :
    calculateDistance 0 0 0 180 = 6371000 * π := by
  unfold calculateDistance toRadians atan2 EARTH_RADIUS_M
  norm_num
  ring

/-- C6 counterexample: after the two accepted samples at (0, 0) and
(0, 180), the stored `totalDistance` is 0, but the sum of inter-sample
great-circle distances is `6371000 * π ≠ 0`: the adapter never adds to
`totalDistance`. -/
theorem C6_counterexample :
    ¬ ((getAgentStatsStore (runSaves "a" [c6s1, c6s2] emptyStore) "a").map
        AgentStats.totalDistance =
      some (specTotalDistance [c6s1, c6s2])) := by
  intro h
  have hL : (getAgentStatsStore (runSaves "a" [c6s1, c6s2] emptyStore)
      "a").map AgentStats.totalDistance = some 0 := by
    simp [runSaves, saveLocationStore, getAgentStatsStore, getAssoc,
      setAssoc, emptyStore, c6s1, c6s2]
  rw [hL] at h
  have h0 : (0 : ℝ) = specTotalDistance [c6s1, c6s2] := by
    simpa using h
  have hval : specTotalDistance [c6s1, c6s2] = 6371000 * π := by
    show calculateDistance c6s1.latitude c6s1.longitude c6s2.latitude
        c6s2.longitude + specTotalDistance [c6s2] = _
    have : specTotalDistance [c6s2] = 0 := rfl
    rw [this]
    show calculateDistance 0 0 0 180 + 0 = _
    rw [calculateDistance_antipodal, add_zero]
  rw [hval] at h0
  have hpos : (0 : ℝ) < 6371000 * π := by positivity
  linarith

/-! ### C5 — enter/exit alternation per (agent, zone) -/

theorem getAssoc_eq_none_of_not_mem_keys {α : Type} (k : String)
    (l : List (String × α)) (h : k ∉ l.map Prod.fst) :
    getAssoc k l = none := by
  induction l with
  | nil => rfl
  | cons p rest ih =>
      simp only [List.map_cons, List.mem_cons] at h
      push_neg at h
      simp [getAssoc, h.1, ih h.2]

theorem mem_keys_setAssoc {α : Type} (k k' : String) (v : α)
    (l : List (String × α)) :
    k' ∈ (setAssoc k v l).map Prod.fst ↔
      k' = k ∨ k' ∈ l.map Prod.fst := by
  induction l with
  | nil => simp [setAssoc]
  | cons p rest ih =>
      by_cases h : k = p.1
      · subst h
        simp [setAssoc]
      · simp [setAssoc, h, ih]
        tauto

theorem nodup_keys_setAssoc {α : Type} (k : String) (v : α)
    (l : List (String × α)) (h : (l.map Prod.fst).Nodup) :
    ((setAssoc k v l).map Prod.fst).Nodup := by
  induction l with
  | nil => simp [setAssoc]
  | cons p rest ih =>
      simp only [List.map_cons, List.nodup_cons] at h
      by_cases hk : k = p.1
      · subst hk
        simpa [setAssoc] using h
      · simp only [setAssoc, if_neg hk, List.map_cons, List.nodup_cons]
        refine ⟨?_, ih h.2⟩
        rw [mem_keys_setAssoc]
        rintro (h' | h')
        · exact hk h'.symm
        · exact h.1 h'

theorem getAssoc_setAssoc_isSome {α : Type} (z k : String) (v : α)
    (l : List (String × α)) (h : (getAssoc z l).isSome = true) :
    (getAssoc z (setAssoc k v l)).isSome = true := by
  by_cases hz : z = k
  · subst hz
    rw [getAssoc_setAssoc_self]
    rfl
  · rw [getAssoc_setAssoc_ne v l hz]
    exact h

theorem projDirs_append (l1 l2 : List MonitorEvent) (a z : String) :
    projDirs (l1 ++ l2) a z = projDirs l1 a z ++ projDirs l2 a z :=
  List.filterMap_append l1 l2 (geoDirFor a z)

theorem altMem_append (l1 l2 : List Bool) :
    altMem (l1 ++ l2) = l2.foldl altStep (altMem l1) := by
  simp [altMem, List.foldl_append]

/-- Events emitted by `checkZones` for a different agent contribute
nothing to the (a, z) projection. -/
theorem projDirs_checkZones_ne_agent (aid a z : String) (lat lon : ℝ)
    (cur : List String) (reg : List (String × Geofence)) (hne : aid ≠ a) :
    projDirs (checkZones aid lat lon cur reg).2 a z = [] := by
  induction reg with
  | nil => rfl
  | cons p rest ih =>
      obtain ⟨zid, g⟩ := p
      unfold checkZones
      split_ifs <;>
        simp_all [projDirs, geoDirFor, List.filterMap_append, hne]

/-- `checkZones` for a zone id absent from the registry: the id never
enters the new membership list and no event mentions it. -/
theorem checkZones_not_reg (a z : String) (lat lon : ℝ) (cur : List String)
    (reg : List (String × Geofence)) (hz : getAssoc z reg = none) :
    z ∉ (checkZones a lat lon cur reg).1 ∧
      projDirs (checkZones a lat lon cur reg).2 a z = [] := by
  induction reg with
  | nil => simp [checkZones, projDirs]
  | cons p rest ih =>
      obtain ⟨zid, g⟩ := p
      have hzz : ¬ z = zid := by
        intro h
        subst h
        simp [getAssoc] at hz
      have hrest : getAssoc z rest = none := by
        simpa [getAssoc, hzz] using hz
      obtain ⟨ih1, ih2⟩ := ih hrest
      have hzz' : ¬ zid = z := fun h => hzz h.symm
      unfold checkZones
      split_ifs with h1 h2 h3 <;>
        simp_all [projDirs, geoDirFor, List.filterMap_append]

/-- `checkZones` for a registered zone (registry keys distinct): the new
membership contains the zone iff the point is inside it, and the (a, z)
event projection is the expected delta. -/
theorem checkZones_reg (a z : String) (lat lon : ℝ) (cur : List String) :
    ∀ (reg : List (String × Geofence)),
      (reg.map Prod.fst).Nodup → ∀ g, getAssoc z reg = some g →
      ((z ∈ (checkZones a lat lon cur reg).1 ↔
          isPointInGeofence lat lon g) ∧
        projDirs (checkZones a lat lon cur reg).2 a z =
          (if isPointInGeofence lat lon g then
            (if z ∈ cur then [] else [true])
          else if z ∈ cur then [false] else [])) := by
  intro reg
  induction reg with
  | nil => intro _ g hg; simp [getAssoc] at hg
  | cons p rest ih =>
      intro hnd g hg
      obtain ⟨zid, g'⟩ := p
      simp only [List.map_cons, List.nodup_cons] at hnd
      by_cases hzz : z = zid
      · subst hzz
        have hgg : g' = g := by simpa [getAssoc] using hg
        subst hgg
        have hrest : getAssoc z rest = none :=
          getAssoc_eq_none_of_not_mem_keys z rest hnd.1
        obtain ⟨hn1, hn2⟩ := checkZones_not_reg a z lat lon cur rest hrest
        unfold checkZones
        split_ifs with h1 h2 h3 <;>
          simp_all [projDirs, geoDirFor, List.filterMap_append]
      · have hrest : getAssoc z rest = some g := by
          simpa [getAssoc, hzz] using hg
        obtain ⟨ih1, ih2⟩ := ih hnd.2 g hrest
        have hzz' : ¬ zid = z := fun h => hzz h.symm
        unfold checkZones
        split_ifs with h1 h2 h3 <;>
          simp_all [projDirs, geoDirFor, List.filterMap_append]

/-- One non-removal operation preserves the alternation invariant. -/
theorem applyGeoOp_inv (a z : String) (st : GeoState) (s : MemStore)
    (op : GeoOp) (hop : nonRemoval op) (h : C5Inv a z st s) :
    C5Inv a z (applyGeoOp (st, s) op).1 (applyGeoOp (st, s) op).2 := by
  obtain ⟨hnd, halt, hmem⟩ := h
  cases op with
  | remove zid => exact hop.elim
  | clearAgent aid => exact hop.elim
  | register g =>
      simp only [applyGeoOp, registerOrKeep]
      cases hreg : registerGeofence st g with
      | error e => simp only [hreg]; exact ⟨hnd, halt, hmem⟩
      | ok st' =>
          simp only [hreg]
          unfold registerGeofence at hreg
          split_ifs at hreg
          cases hreg
          refine ⟨nodup_keys_setAssoc _ _ _ hnd, halt, ?_⟩
          intro hz
          exact getAssoc_setAssoc_isSome _ _ _ _ (hmem hz)
  | check aid loc =>
      simp only [applyGeoOp, checkGeofences]
      by_cases haid : aid = a
      · subst haid
        cases hreg : getAssoc z st.geofences with
        | none =>
            obtain ⟨hn1, hn2⟩ := checkZones_not_reg aid z loc.latitude
              loc.longitude ((getAssoc aid st.agentGeofences).getD [])
              st.geofences hreg
            have hzcur : z ∉ (getAssoc aid st.agentGeofences).getD [] := by
              intro hz
              have := hmem hz
              rw [hreg] at this
              simp at this
            refine ⟨hnd, ?_, ?_⟩
            · rw [projDirs_append, hn2, List.append_nil, halt,
                getAssoc_setAssoc_self]
              simp [hzcur, hn1]
            · intro hz
              rw [getAssoc_setAssoc_self] at hz
              simp only [Option.getD_some] at hz
              exact absurd hz hn1
        | some g =>
            obtain ⟨hiff, hproj⟩ := checkZones_reg aid z loc.latitude
              loc.longitude ((getAssoc aid st.agentGeofences).getD [])
              st.geofences hnd g hreg
            refine ⟨hnd, ?_, ?_⟩
            · rw [projDirs_append, altMem_append, halt, hproj,
                getAssoc_setAssoc_self]
              simp only [Option.getD_some]
              by_cases hin : isPointInGeofence loc.latitude loc.longitude g
              · by_cases hzc :
                    z ∈ (getAssoc aid st.agentGeofences).getD []
                · simp [hin, hzc, altStep, hiff]
                · simp [hin, hzc, altStep, hiff]
              · by_cases hzc :
                    z ∈ (getAssoc aid st.agentGeofences).getD []
                · simp [hin, hzc, altStep, hiff]
                · simp [hin, hzc, altStep, hiff]
            · intro _
              rw [hreg]
              rfl
      · have hproj0 := projDirs_checkZones_ne_agent aid a z loc.latitude
          loc.longitude ((getAssoc aid st.agentGeofences).getD [])
          st.geofences haid
        have hane : a ≠ aid := fun h => haid h.symm
        refine ⟨hnd, ?_, ?_⟩
        · rw [projDirs_append, hproj0, List.append_nil,
            getAssoc_setAssoc_ne _ _ hane]
          exact halt
        · intro hz
          rw [getAssoc_setAssoc_ne _ _ hane] at hz
          exact hmem hz

theorem runGeoOps_inv (a z : String) :
    ∀ (ops : List GeoOp) (st : GeoState) (s : MemStore),
      (∀ op ∈ ops, nonRemoval op) → C5Inv a z st s →
      C5Inv a z (ops.foldl applyGeoOp (st, s)).1
        (ops.foldl applyGeoOp (st, s)).2 := by
  intro ops
  induction ops with
  | nil => intro st s _ h; exact h
  | cons op rest ih =>
      intro st s hops h
      have h1 := applyGeoOp_inv a z st s op (hops op (by simp)) h
      have h2 := ih (applyGeoOp (st, s) op).1 (applyGeoOp (st, s) op).2
        (fun o ho => hops o (by simp [ho])) h1
      simpa [List.foldl_cons] using h2

/-- C5 (amended): restricted to operation sequences without
`removeGeofence` and `clearAgentGeofences`, the enter/exit events for
every (agent, zone) pair form a strict alternation starting with an
enter. -/
theorem C5_amended_alternation (ops : List GeoOp)
    (hops : ∀ op ∈ ops, nonRemoval op) (a z : String) :
    strictAlternation (projDirs (runGeoOps ops).2.events a z) := by
  have hinit : C5Inv a z emptyGeoState emptyStore := by
    refine ⟨by simp [emptyGeoState], ?_, by simp [emptyGeoState, getAssoc]⟩
    simp [emptyStore, projDirs, altMem, emptyGeoState, getAssoc]
  obtain ⟨-, halt, -⟩ := runGeoOps_inv a z ops emptyGeoState emptyStore
    hops hinit
  unfold strictAlternation
  rw [show runGeoOps ops = ops.foldl applyGeoOp (emptyGeoState, emptyStore)
    from rfl, halt]
  rfl

/-- The point (5, 5) is inside the square zone (ray casting toggles once,
on the edge from (10, 10) to (0, 10)). -/
theorem c5loc_inside : isPointInGeofence 5 5 zSquare := by
  show isPointInPolygon 5 5 _ = true
  unfold isPointInPolygon polygonEdges
  norm_num [zSquare, rayCastStep, eq_iff_iff]

/-- C5 counterexample: enter the square, remove the zone (no exit event is
emitted, and the membership entry is erased), re-register it and enter
again: the (a, z) projection is two consecutive enters, violating strict
alternation. -/
theorem C5_counterexample :
    projDirs (runGeoOps c5ops).2.events "a" "z" = [true, true] ∧
      ¬ strictAlternation [true, true] := by
  constructor
  · simp [runGeoOps, c5ops, applyGeoOp, registerOrKeep, registerGeofence,
      zSquare_valid, zSquare_id, checkGeofences, checkZones, c5loc,
      c5loc_inside, removeGeofence, delAssoc, setAssoc, getAssoc,
      emptyGeoState, emptyStore, projDirs, geoDirFor]
  · simp [strictAlternation, altMem, altStep]

/-- C5 witness: the amended alternation theorem applied to the removal-free
trace that registers the square and checks a sample inside it. -/
theorem C5_witness :
    strictAlternation (projDirs
      (runGeoOps [.register zSquare, .check "a" c5loc]).2.events "a" "z") :=
  C5_amended_alternation [.register zSquare, .check "a" c5loc]
    (by
      intro op hop
      simp only [List.mem_cons, List.not_mem_nil, or_false] at hop
      rcases hop with rfl | rfl <;> trivial)
    "a" "z"

end LocationMonitor
